import Mathlib

/-!
Shallow embedding of `src/Client.js` of Eonus21/whatsapp-web.js, restricted to
the parts the verified claims are about: the event bridge callbacks
(`onAddMessageEvent`, `onChangeMessageEvent`, `onChangeMessageTypeEvent`,
`onAppStateChangedEvent`), the QR-retry callback `qrChanged`, the `ready`
emission at the end of `initialize`, `logout`, `sendMessage` content
resolution, `pinChat`, and `getNumberId`.

JavaScript records are modelled as Lean structures carrying exactly the fields
the embedded code reads; event emission is modelled as returning the ordered
list of emitted events.
-/

namespace WWebJS

/-- The message-identity record `msg.id` as read by `Client.js`
(`msg.id.fromMe`, `msg.id.id`). -/
structure MsgId where
  fromMe : Bool
  id : String
deriving DecidableEq, Repr

/-- The raw message record delivered to the exposed callbacks, with the fields
`Client.js` reads: `isNewMsg`, `type`, `subtype`, `id`.  `subtype` is
`Option String` because a non-group message carries no subtype (JS
`undefined`), and `undefined === 'add'` is false. -/
structure Msg where
  isNewMsg : Bool
  type : String
  subtype : Option String
  id : MsgId
deriving DecidableEq, Repr

/-- Connection-state values compared against by `onAppStateChangedEvent`.
`Client.js` only compares the incoming state for equality with the named
constants `WAState.CONNECTED/OPENING/PAIRING/TIMEOUT/CONFLICT`; any other
value is covered by `other`. -/
inductive WAStateVal where
  | connected
  | opening
  | pairing
  | timeout
  | conflict
  | other (s : String)
deriving DecidableEq, Repr

/-- The events `Client.js` emits on the paths under verification, each carrying
its payload.  `disconnectedReason` is the string-payload form of the
`disconnected` event (QR retries exhausted); `disconnectedState` is the
state-payload form emitted by `onAppStateChangedEvent`. -/
inductive Event where
  | qrReceived (qr : String)
  | disconnectedReason (reason : String)
  | disconnectedState (s : WAStateVal)
  | groupJoin (m : Msg)
  | groupLeave (m : Msg)
  | groupUpdate (m : Msg)
  | messageCreate (m : Msg)
  | messageReceived (m : Msg)
  | messageRevokedEveryone (m : Msg) (revoked : Option Msg)
  | stateChanged (s : WAStateVal)
  | ready
deriving DecidableEq, Repr

/-! ## Event bridge: `onAddMessageEvent` (Client.js lines 268-315) -/

/-- Callback onAddMessageEvent: returns the ordered list of events the callback
emits for one message-added record. -/
def onAddMessageEvent (msg : Msg) : List Event :=
  if !msg.isNewMsg then []
  else if msg.type = "gp2" then
    if msg.subtype = some "add" ∨ msg.subtype = some "invite" then
      [Event.groupJoin msg]
    else if msg.subtype = some "remove" ∨ msg.subtype = some "leave" then
      [Event.groupLeave msg]
    else
      [Event.groupUpdate msg]
  else
    Event.messageCreate msg ::
      (if msg.id.fromMe then [] else [Event.messageReceived msg])

/-- The `Store.Msg.on('add', ...)` wiring (Client.js line 442) forwards to
`onAddMessageEvent` only when `msg.isNewMsg`. -/
def bridgeAddMessage (msg : Msg) : List Event :=
  if msg.isNewMsg then onAddMessageEvent msg else []

/-- True of the group events. -/
def Event.isGroupEvent : Event → Bool
  | Event.groupJoin _ => true
  | Event.groupLeave _ => true
  | Event.groupUpdate _ => true
  | _ => false

/-! ## Event bridge: message-changed callbacks (Client.js lines 317-346) -/

/-- Callback onChangeMessageEvent: the generic change callback only updates the
single-slot `last_message` cache; it returns the new cache contents. -/
def onChangeMessageEvent (last_message : Option Msg) (msg : Msg) : Option Msg :=
  if msg.type ≠ "revoked" then some msg else last_message

/-- Callback onChangeMessageTypeEvent: on a type change to `"revoked"`, emits one
`message_revoke_everyone` event carrying the current record and, when the
cached record shares the same `id.id`, the cached pre-revoke record. -/
def onChangeMessageTypeEvent (last_message : Option Msg) (msg : Msg) :
    List Event :=
  if msg.type = "revoked" then
    let revoked_msg : Option Msg :=
      match last_message with
      | some lm => if msg.id.id = lm.id.id then some lm else none
      | none => none
    [Event.messageRevokedEveryone msg revoked_msg]
  else []

/-! ## QR retry callback `qrChanged` (Client.js lines 165-175) -/

/-- The mutable state the `qrChanged` closure touches: the `qrRetries`
counter and whether `this.destroy()` has been invoked. -/
structure QrState where
  qrRetries : Nat
  destroyed : Bool
deriving DecidableEq, Repr

/-- One invocation of the exposed `qrChanged` callback: emits `qr`, then, only
when `options.qrMaxRetries > 0`, increments `qrRetries` and, once the counter
exceeds the maximum, emits `disconnected` with the literal reason string and
destroys the session. -/
def qrChanged (qrMaxRetries : Nat) (s : QrState) (qr : String) :
    QrState × List Event :=
  let events := [Event.qrReceived qr]
  if qrMaxRetries > 0 then
    let r := s.qrRetries + 1
    if r > qrMaxRetries then
      ({ qrRetries := r, destroyed := true },
        events ++ [Event.disconnectedReason "Max qrcode retries reached"])
    else
      ({ s with qrRetries := r }, events)
  else
    (s, events)

/-- Iteration: k successive token refreshes starting from a fresh closure state. -/
def qrIterate (qrMaxRetries : Nat) : Nat → QrState
  | 0 => { qrRetries := 0, destroyed := false }
  | k + 1 => (qrChanged qrMaxRetries (qrIterate qrMaxRetries k) "tok").1

/-! ## The `ready` emission at the end of `initialize` (Client.js line 456) -/

/-- The identifiers in scope at the `this.emit(Events.READY, loggedAndTimeouted)`
statement in `initialize`: the function-scoped locals of `initialize`, its
parameter, and the module-level bindings of `Client.js`.  The block-scoped
names of the QR branch (`QR_CONTAINER`, `QR_RETRY_BUTTON`, `qrRetries`) are
not visible there. -/
def initializeScopeNames : List String :=
  ["browser", "page", "puppeteerOpts", "response",
   "INTRO_IMG_SELECTOR", "INTRO_QRCODE_SELECTOR", "needAuthentication",
   "authEventPayload", "isMD", "last_message", "credentials",
   "path", "fs", "EventEmitter", "puppeteer", "moduleRaid",
   "Util", "InterfaceController", "WhatsWebURL", "DefaultOptions", "Events",
   "WAState", "ExposeStore", "LoadUtils", "ChatFactory", "ContactFactory",
   "ClientInfo", "Message", "MessageMedia", "Contact", "Location",
   "GroupNotification", "Label", "Call", "Buttons", "List",
   "Client", "module", "require", "process"]

/-- Strict-mode identifier resolution: reading an identifier that is bound in
no enclosing scope raises a `ReferenceError`. -/
def lookupIdent (env : List String) (x : String) : Except String String :=
  if env.contains x then Except.ok x
  else Except.error ("ReferenceError: " ++ x ++ " is not defined")

/-- The `ready` emission step of `initialize`: evaluate the argument
expression `loggedAndTimeouted`, then emit `ready` with it.  If the argument
expression raises, the emit never runs and `initialize` rejects. -/
def emitReadyStep : Except String (List Event) :=
  (lookupIdent initializeScopeNames "loggedAndTimeouted").map
    (fun _ => [Event.ready])

/-! ## `logout` (Client.js lines 476-484) -/

/-- Untyped JavaScript values, as far as the `logout` tail needs them. -/
inductive JsValue where
  | str (s : String)
  | undef
  | options (recursive : Bool)
deriving DecidableEq, Repr

/-- One invocation of a removal function (`fs.rmSync` / `fs.rmdirSync`),
recording the `this` binding and the positional arguments it receives. -/
structure RemovalInvocation where
  thisArg : JsValue
  firstArg : JsValue
  secondArg : JsValue
deriving DecidableEq, Repr

/-- The actions `logout` performs in order: the remote logout command, then
(when `dataDir` is set) the invocation of the removal function. -/
inductive LogoutAction where
  | remoteLogout
  | removal (inv : RemovalInvocation)
deriving DecidableEq, Repr

/-- The invocation `(fs.rmSync ? fs.rmSync : fs.rmdirSync).call(this.dataDir,
{ recursive: true })` performed by `logout`:
`Function.prototype.call(thisArg, arg1, ...)` binds its first argument as
`this` and passes the rest positionally, so the removal function receives the
options record as its first positional argument and `dataDir` only as
`this`. -/
def logoutRemovalInv (dataDir : String) : RemovalInvocation :=
  { thisArg := JsValue.str dataDir
    firstArg := JsValue.options true
    secondArg := JsValue.undef }

/-- Function logout: issues `window.Store.AppState.logout()` and then, if
`this.dataDir` is set, runs the removal invocation. -/
def logoutActions (dataDir : Option String) : List LogoutAction :=
  LogoutAction.remoteLogout ::
    (match dataDir with
     | some d => [LogoutAction.removal (logoutRemovalInv d)]
     | none => [])

/-- Node's `fs.rmSync(path, options)`: the first positional argument is the
path and must be a string (else `ERR_INVALID_ARG_TYPE`). -/
def rmSyncPathArg (inv : RemovalInvocation) : Except String String :=
  match inv.firstArg with
  | JsValue.str p => Except.ok p
  | _ => Except.error "TypeError ERR_INVALID_ARG_TYPE: path must be a string"

/-! ## `onAppStateChangedEvent` (Client.js lines 389-421) -/

/-- The list ACCEPTED_STATES, after the conditional `push(WAState.CONFLICT)` that
runs when `takeoverOnConflict` is configured. -/
def acceptedStates (takeoverOnConflict : Bool) : List WAStateVal :=
  [WAStateVal.connected, WAStateVal.opening, WAStateVal.pairing,
   WAStateVal.timeout] ++
    (if takeoverOnConflict then [WAStateVal.conflict] else [])

/-- Result of one `onAppStateChangedEvent` invocation: the ordered events and
whether a delayed takeover command was scheduled via `setTimeout`. -/
structure AppStateResult where
  events : List Event
  takeoverScheduled : Bool
deriving DecidableEq, Repr

/-- Callback onAppStateChangedEvent: emits `change_state` first, unconditionally;
when `takeoverOnConflict` is set and the state is `conflict`, schedules the
delayed takeover; emits `disconnected` iff the state is outside
`ACCEPTED_STATES`. -/
def onAppStateChangedEvent (takeoverOnConflict : Bool) (state : WAStateVal) :
    AppStateResult :=
  let events := [Event.stateChanged state]
  let sched := takeoverOnConflict && state == WAStateVal.conflict
  if (acceptedStates takeoverOnConflict).contains state then
    { events := events, takeoverScheduled := sched }
  else
    { events := events ++ [Event.disconnectedState state],
      takeoverScheduled := sched }

/-- The scheduled takeover's `.catch` handler: a failure of the remote
takeover evaluate is turned into a console log line, never a thrown error
(the outer `Except` is always `ok`). -/
def takeoverHandler (remoteResult : Except String Unit) :
    Except String (List String) :=
  Except.ok
    (match remoteResult with
     | Except.error e => ["WA conflict evaluate error " ++ e]
     | Except.ok _ => [])

/-! ## `sendMessage` content resolution (Client.js lines 537-576) -/

/-- A `MessageMedia` value, with the field the dispatcher reads. -/
structure MediaObj where
  mimetype : String
  data : String
deriving DecidableEq, Repr

/-- A `Location` value. -/
structure LocationObj where
  latitude : Int
  longitude : Int
  description : String
deriving DecidableEq, Repr

/-- A `Contact` value, carrying `id._serialized`. -/
structure ContactObj where
  serializedId : String
deriving DecidableEq, Repr

/-- A `Buttons` value, with the fields the dispatcher reads (`type`, `body`). -/
structure ButtonsObj where
  type : String
  body : String
deriving DecidableEq, Repr

/-- A `List` (list-message) value. -/
structure ListObj where
  body : String
deriving DecidableEq, Repr

/-- An element of an array passed as `content`: the chain only distinguishes
whether an element is a `Contact` (it reads `content[0] instanceof Contact`
and maps `.id._serialized` over the elements); any other element shape is
behaviourally opaque. -/
inductive ArrElem where
  | contact (c : ContactObj)
  | otherVal (tag : String)
deriving DecidableEq, Repr

/-- The untyped `content` argument of `sendMessage`: the `instanceof` chain
distinguishes exactly these shapes (anything else behaves like plain text /
an unmatched value and falls through the chain). -/
inductive SContent where
  | text (s : String)
  | media (m : MediaObj)
  | location (l : LocationObj)
  | contact (c : ContactObj)
  | arr (xs : List ArrElem)
  | buttons (b : ButtonsObj)
  | listMsg (l : ListObj)
deriving DecidableEq, Repr

/-- Values assignable to `internalOptions.attachment`: a `MessageMedia`
(first two branches) or a buttons body (buttons branch). -/
inductive AttachVal where
  | media (m : MediaObj)
  | body (s : String)
deriving DecidableEq, Repr

/-- The caller-supplied options the resolution chain reads. -/
structure SendOptionsIn where
  media : Option MediaObj
  caption : Option String
deriving DecidableEq, Repr

/-- The content-variant fields of the `internalOptions` record built by
`sendMessage`:  `caption` is `Option SContent` because the media-via-options
branch assigns the original (arbitrary) content value to it. -/
structure InternalOptions where
  attachment : Option AttachVal
  caption : Option SContent
  location : Option LocationObj
  contactCard : Option String
  contactCardList : Option (List String)
  buttons : Option ButtonsObj
  list : Option ListObj
deriving DecidableEq, Repr

/-- The `internalOptions` record before the content chain runs: content
fields empty, caption taken from `options.caption`. -/
def initInternal (opts : SendOptionsIn) : InternalOptions :=
  { attachment := none
    caption := opts.caption.map SContent.text
    location := none
    contactCard := none
    contactCardList := none
    buttons := none
    list := none }

/-- The guard of the contact-list branch:
`Array.isArray(content) && content.length > 0 && content[0] instanceof Contact`. -/
def isContactArray : List ArrElem → Bool
  | ArrElem.contact _ :: _ => true
  | _ => false

/-- The mapping `content.map(contact => contact.id._serialized)`: reading
`.id._serialized` off a non-`Contact` element throws. -/
def serializeContacts (xs : List ArrElem) : Except String (List String) :=
  xs.mapM (fun x =>
    match x with
    | ArrElem.contact c => Except.ok c.serializedId
    | _ => Except.error "TypeError: Cannot read properties of undefined")

/-- The `instanceof` chain of `sendMessage` (first match wins), producing the
updated `internalOptions` record and the (possibly emptied) content value. -/
def resolveContent (opts : SendOptionsIn) (content : SContent) :
    Except String (InternalOptions × SContent) :=
  let io := initInternal opts
  match content, opts.media with
  | SContent.media m, _ =>
      Except.ok ({ io with attachment := some (AttachVal.media m) },
        SContent.text "")
  | c, some m =>
      Except.ok ({ io with attachment := some (AttachVal.media m), caption := some c },
        SContent.text "")
  | SContent.location l, none =>
      Except.ok ({ io with location := some l }, SContent.text "")
  | SContent.contact c, none =>
      Except.ok ({ io with contactCard := some c.serializedId },
        SContent.text "")
  | SContent.arr xs, none =>
      if isContactArray xs then
        (serializeContacts xs).map (fun ids =>
          ({ io with contactCardList := some ids }, SContent.text ""))
      else Except.ok (io, SContent.arr xs)
  | SContent.buttons b, none =>
      Except.ok
        ({ io with
           attachment :=
             (if b.type ≠ "chat" then some (AttachVal.body b.body) else none)
           buttons := some b },
         SContent.text "")
  | SContent.listMsg l, none =>
      Except.ok ({ io with list := some l }, SContent.text "")
  | SContent.text s, none =>
      Except.ok (io, SContent.text s)

/-- The branches of the resolution order, plus `noneBranch` when no branch
matches (plain text, or an array not starting with a contact). -/
inductive ContentBranch where
  | mediaPrimary
  | mediaViaOptions
  | locationBranch
  | contactBranch
  | contactListBranch
  | buttonsBranch
  | listBranch
  | noneBranch
deriving DecidableEq, Repr

/-- Which branch the fixed first-match-wins order selects: media as primary
content; media via options (any non-media content); location; single
contact; non-empty array headed by a contact; buttons; list. -/
def matchedBranch (opts : SendOptionsIn) (content : SContent) :
    ContentBranch :=
  match content, opts.media with
  | SContent.media _, _ => ContentBranch.mediaPrimary
  | _, some _ => ContentBranch.mediaViaOptions
  | SContent.location _, none => ContentBranch.locationBranch
  | SContent.contact _, none => ContentBranch.contactBranch
  | SContent.arr xs, none =>
      if isContactArray xs then ContentBranch.contactListBranch
      else ContentBranch.noneBranch
  | SContent.buttons _, none => ContentBranch.buttonsBranch
  | SContent.listMsg _, none => ContentBranch.listBranch
  | SContent.text _, none => ContentBranch.noneBranch

/-- How many content variants an `internalOptions` record populates.  A
media attachment is the media variant; a buttons-body attachment belongs to
the buttons variant and is not counted separately. -/
def populatedVariants (io : InternalOptions) : Nat :=
  (match io.attachment with
   | some (AttachVal.media _) => 1
   | _ => 0) +
  (if io.location.isSome then 1 else 0) +
  (if io.contactCard.isSome then 1 else 0) +
  (if io.contactCardList.isSome then 1 else 0) +
  (if io.buttons.isSome then 1 else 0) +
  (if io.list.isSome then 1 else 0)

/-! ## `pinChat` (Client.js lines 803-819) -/

/-- A chat record as read by `pinChat`: its id and its `pin` flag. -/
structure ChatObj where
  id : String
  pin : Bool
deriving DecidableEq, Repr

/-- The remote-page half of `pinChat`, over the chat collection
`window.Store.Chat.models`.  Returns `(result, remoteMutationIssued)`:
`result` is the boolean the promise resolves to, `remoteMutationIssued`
records whether `window.Store.Cmd.pinChat(chat, true)` was invoked.
`MAX_PIN_COUNT = 3`; the guard reads `models[MAX_PIN_COUNT - 1].pin` only
when `models.length > MAX_PIN_COUNT`. -/
def pinChat (models : List ChatObj) (chatId : String) :
    Except String (Bool × Bool) :=
  match models.find? (fun c => c.id == chatId) with
  | none => Except.error "TypeError: Cannot read properties of undefined"
  | some chat =>
    if chat.pin then Except.ok (true, false)
    else
      let blocked :=
        decide (models.length > 3) &&
          (match models[2]? with
           | some c => c.pin
           | none => false)
      if blocked then Except.ok (false, false)
      else Except.ok (true, true)

/-! ## `getNumberId` (Client.js lines 925-939) -/

/-- The id object `window.WWebJS.getNumberId` resolves with (or `null`). -/
structure NumberIdObj where
  serialized : String
deriving DecidableEq, Repr

/-- The normalization `getNumberId` applies before the round trip: append
`@c.us` when missing, then prepend `+` when missing. -/
def normalizeNumber (number : String) : String :=
  let n := if number.endsWith "@c.us" then number else number ++ "@c.us"
  if n.startsWith "+" then n else "+" ++ n

/-- Function getNumberId: the remote round trip (`pupPage.evaluate` of
`window.WWebJS.getNumberId`) is modelled as a function that either resolves
with an optional id object or fails; the `try`/`catch` maps every failure to
`null`. -/
def getNumberId (remote : String → Except String (Option NumberIdObj))
    (number : String) : Option NumberIdObj :=
  match remote (normalizeNumber number) with
  | Except.ok v => v
  | Except.error _ => none

/-! ## Concrete sample records used by witnesses and counterexamples -/

/-- A sample message identity not originating from the client's account. -/
def sampleId : MsgId := { fromMe := false, id := "m1" }

/-- A sample group-notification record with subtype `"add"`. -/
def gp2AddMsg : Msg :=
  { isNewMsg := true, type := "gp2", subtype := some "add", id := sampleId }

/-- A sample pre-revoke chat record. -/
def preMsg : Msg :=
  { isNewMsg := true, type := "chat", subtype := none, id := sampleId }

/-- The same record after a type change to `"revoked"`. -/
def revMsg : Msg :=
  { isNewMsg := true, type := "revoked", subtype := none, id := sampleId }

/-! ## Theorems -/

/-- C1: for every message-added mutation delivered to the event bridge: a
record not flagged new emits nothing; a new record of the group-notification
type `"gp2"` emits exactly one group event (`group_join` on subtype
`"add"`/`"invite"`, `group_leave` on `"remove"`/`"leave"`, else
`group_update`) and no message event; any other new record emits
`message_create` unconditionally, followed by `message` iff the record did
not originate from the client's own account. -/
theorem onAddMessageEvent_spec (msg : Msg) :
    (msg.isNewMsg = false →
      onAddMessageEvent msg = [] ∧ bridgeAddMessage msg = []) ∧
    (msg.isNewMsg = true → msg.type = "gp2" →
      (onAddMessageEvent msg).length = 1 ∧
      (∀ e ∈ onAddMessageEvent msg, e.isGroupEvent = true) ∧
      onAddMessageEvent msg =
        (if msg.subtype = some "add" ∨ msg.subtype = some "invite" then
           [Event.groupJoin msg]
         else if msg.subtype = some "remove" ∨ msg.subtype = some "leave" then
           [Event.groupLeave msg]
         else [Event.groupUpdate msg])) ∧
    (msg.isNewMsg = true → msg.type ≠ "gp2" →
      onAddMessageEvent msg =
        Event.messageCreate msg ::
          (if msg.id.fromMe then [] else [Event.messageReceived msg])) := by
  refine ⟨fun hnew => ?_, fun hnew htype => ?_, fun hnew htype => ?_⟩
  · simp [onAddMessageEvent, bridgeAddMessage, hnew]
  · have hev : onAddMessageEvent msg =
        (if msg.subtype = some "add" ∨ msg.subtype = some "invite" then
           [Event.groupJoin msg]
         else if msg.subtype = some "remove" ∨ msg.subtype = some "leave" then
           [Event.groupLeave msg]
         else [Event.groupUpdate msg]) := by
      simp [onAddMessageEvent, hnew, htype]
    by_cases hA : msg.subtype = some "add" ∨ msg.subtype = some "invite"
    · simp [hev, hA, Event.isGroupEvent]
    · by_cases hB : msg.subtype = some "remove" ∨ msg.subtype = some "leave"
      · simp [hev, hA, hB, Event.isGroupEvent]
      · simp [hev, hA, hB, Event.isGroupEvent]
  · simp [onAddMessageEvent, hnew, htype]

/-- Witness for C1 at a concrete group-notification record with subtype
`"add"`. -/
theorem onAddMessageEvent_spec_witness :
    onAddMessageEvent gp2AddMsg = [Event.groupJoin gp2AddMsg] := by
  have h := (onAddMessageEvent_spec gp2AddMsg).2.1 rfl rfl
  have h2 := h.2.2
  simpa [gp2AddMsg] using h2

/-- C2: the generic message-changed callback overwrites the single-slot
cache with the record iff its type is not `"revoked"`; the type-changed
callback, at type `"revoked"`, emits exactly one `message_revoke_everyone`
event carrying the post-revoke record, whose pre-revoke payload is the
cached record iff the cache is occupied by a record with the same message
identity. -/
theorem onChangeMessage_revoke_spec (last_message : Option Msg) (msg : Msg) :
    (onChangeMessageEvent last_message msg =
      if msg.type = "revoked" then last_message else some msg) ∧
    (msg.type ≠ "revoked" → onChangeMessageTypeEvent last_message msg = []) ∧
    (msg.type = "revoked" →
      ∃ r, onChangeMessageTypeEvent last_message msg =
          [Event.messageRevokedEveryone msg r] ∧
        ∀ lm, r = some lm ↔ last_message = some lm ∧ msg.id.id = lm.id.id) := by
  refine ⟨?_, fun htype => ?_, fun htype => ?_⟩
  · by_cases h : msg.type = "revoked" <;> simp [onChangeMessageEvent, h]
  · simp [onChangeMessageTypeEvent, htype]
  · cases last_message with
    | none =>
      refine ⟨none, by simp [onChangeMessageTypeEvent, htype], fun lm => ?_⟩
      simp
    | some lm0 =>
      by_cases hid : msg.id.id = lm0.id.id
      · refine ⟨some lm0,
          by simp [onChangeMessageTypeEvent, htype, hid], fun lm => ?_⟩
        constructor
        · intro h
          injection h with h
          subst h
          exact ⟨rfl, hid⟩
        · exact fun h => h.1
      · refine ⟨none,
          by simp [onChangeMessageTypeEvent, htype, hid], fun lm => ?_⟩
        constructor
        · intro h
          simp at h
        · rintro ⟨h1, h2⟩
          injection h1 with h1
          subst h1
          exact absurd h2 hid

/-- Witness for C2 at a concrete revoked record whose identity matches the
cached record. -/
theorem onChangeMessage_revoke_spec_witness :
    onChangeMessageTypeEvent (some preMsg) revMsg =
      [Event.messageRevokedEveryone revMsg (some preMsg)] := by
  obtain ⟨r, hr, hiff⟩ :=
    (onChangeMessage_revoke_spec (some preMsg) revMsg).2.2 rfl
  have hreq : r = some preMsg := (hiff preMsg).2 ⟨rfl, rfl⟩
  rw [hreq] at hr
  exact hr

/-- Helper: below the maximum, each refresh increments the counter by one
and never destroys the session. -/
theorem qrIterate_counter (N : Nat) (hN : 0 < N) :
    ∀ k, k ≤ N →
      (qrIterate N k).qrRetries = k ∧ (qrIterate N k).destroyed = false := by
  intro k
  induction k with
  | zero => exact fun _ => ⟨rfl, rfl⟩
  | succ k ih =>
    intro hk
    obtain ⟨hc, hd⟩ := ih (Nat.le_of_succ_le hk)
    have hnot : ¬ (k + 1 > N) := by omega
    constructor
    · simp [qrIterate, qrChanged, hN, hc, hnot]
    · simp [qrIterate, qrChanged, hN, hc, hnot, hd]

/-- C3 counterexample: the claim as stated fails on the code at concrete
inputs.  With `qrMaxRetries = 0` a token-refresh callback does not increment
the counter at all (the claim says it increments exactly once per callback),
and with `qrMaxRetries = 1` the disconnect emitted on the second refresh
carries the literal reason `"Max qrcode retries reached"`, not
`"max retries reached"`. -/
theorem qrChanged_claim_counterexample :
    ((qrChanged 0 { qrRetries := 0, destroyed := false } "tok").1.qrRetries
        = 0) ∧
    (decide
      ((qrChanged 0 { qrRetries := 0, destroyed := false } "tok").1.qrRetries
        = 0 + 1) = false) ∧
    ((qrChanged 1 { qrRetries := 1, destroyed := false } "tok").2 =
      [Event.qrReceived "tok",
       Event.disconnectedReason "Max qrcode retries reached"]) ∧
    ((qrChanged 1 { qrRetries := 1, destroyed := false } "tok").2.contains
      (Event.disconnectedReason "max retries reached") = false) := by
  decide

/-- C3 (amended): when `qrMaxRetries = N > 0`, each token refresh increments
the counter exactly once; the first `N` refreshes emit only `qr` and do not
destroy the session; the `(N+1)`-th refresh emits exactly one `disconnected`
event, with the literal reason `"Max qrcode retries reached"`, and destroys
the session.  When `qrMaxRetries = 0`, a refresh leaves the closure state
untouched and never disconnects. -/
theorem qrChanged_amended (N : Nat) (hN : 0 < N) :
    (∀ (s : QrState) (qr : String),
      (qrChanged N s qr).1.qrRetries = s.qrRetries + 1) ∧
    (∀ k, k < N →
      (qrChanged N (qrIterate N k) "tok").2 = [Event.qrReceived "tok"] ∧
      (qrChanged N (qrIterate N k) "tok").1.destroyed = false) ∧
    ((qrChanged N (qrIterate N N) "tok").2 =
      [Event.qrReceived "tok",
       Event.disconnectedReason "Max qrcode retries reached"] ∧
     (qrChanged N (qrIterate N N) "tok").1.destroyed = true) ∧
    (∀ (s : QrState) (qr : String),
      qrChanged 0 s qr = (s, [Event.qrReceived qr])) := by
  refine ⟨fun s qr => ?_, fun k hk => ?_, ⟨?_, ?_⟩, fun s qr => ?_⟩
  · by_cases h : s.qrRetries + 1 > N <;> simp [qrChanged, hN, h]
  · obtain ⟨hc, hd⟩ := qrIterate_counter N hN k (Nat.le_of_lt hk)
    have hnot : ¬ (k + 1 > N) := by omega
    constructor
    · simp [qrChanged, hN, hc, hnot]
    · simp [qrChanged, hN, hc, hnot, hd]
  · obtain ⟨hc, _⟩ := qrIterate_counter N hN N (Nat.le_refl N)
    have hgt : N + 1 > N := by omega
    simp [qrChanged, hN, hc, hgt]
  · obtain ⟨hc, _⟩ := qrIterate_counter N hN N (Nat.le_refl N)
    have hgt : N + 1 > N := by omega
    simp [qrChanged, hN, hc, hgt]
  · simp [qrChanged]

/-- Witness for the amended C3 at `qrMaxRetries = 1`: the second refresh
emits the disconnect with the code's literal reason and destroys the
session. -/
theorem qrChanged_amended_witness :
    (qrChanged 1 (qrIterate 1 1) "tok").2 =
      [Event.qrReceived "tok",
       Event.disconnectedReason "Max qrcode retries reached"] ∧
    (qrChanged 1 (qrIterate 1 1) "tok").1.destroyed = true :=
  (qrChanged_amended 1 (by decide)).2.2.1

/-- C4 (code bug): the `ready` emission at Client.js line 456 passes the
identifier `loggedAndTimeouted`, which is bound in no enclosing scope, so
evaluating the emit's argument raises a `ReferenceError`: `initialize`
rejects there and the `ready` event is never emitted (and, had the
identifier resolved, the event would carry a payload, while the documented
`ready` event has none). -/
theorem initialize_ready_never_emitted :
    emitReadyStep =
        Except.error "ReferenceError: loggedAndTimeouted is not defined" ∧
    emitReadyStep.toOption = none ∧
    (initializeScopeNames.contains "loggedAndTimeouted") = false :=
  ⟨rfl, rfl, by decide⟩

/-- C5 (code bug): `logout` does issue the remote logout command before the
removal, but the removal is invoked as
`(fs.rmSync ? fs.rmSync : fs.rmdirSync).call(this.dataDir, { recursive: true })`,
so the session directory path is bound as `this` and the removal function's
first positional argument — its `path` parameter — is the options record,
which is not a string: the path is never passed where Node's `rmSync`
expects it, and `rmSync` raises `ERR_INVALID_ARG_TYPE`. -/
theorem logout_removal_path_bug (dataDir : String) :
    logoutActions (some dataDir) =
      [LogoutAction.remoteLogout,
       LogoutAction.removal (logoutRemovalInv dataDir)] ∧
    ((logoutRemovalInv dataDir).firstArg == JsValue.str dataDir) = false ∧
    rmSyncPathArg (logoutRemovalInv dataDir) =
      Except.error "TypeError ERR_INVALID_ARG_TYPE: path must be a string" :=
  ⟨rfl, rfl, rfl⟩

/-- Witness for C5 at a concrete session directory path. -/
theorem logout_removal_path_bug_witness :
    rmSyncPathArg (logoutRemovalInv "session-abc") =
      Except.error "TypeError ERR_INVALID_ARG_TYPE: path must be a string" :=
  (logout_removal_path_bug "session-abc").2.2

/-- C6 counterexample: at a connection state outside the accepted set (with
takeover not configured), the handler emits both a `change_state` event and
a `disconnected` event for the same mutation, refuting the claim's
"either ... or ..., not both". -/
theorem onAppStateChanged_claim_counterexample :
    ((onAppStateChangedEvent false (WAStateVal.other "UNPAIRED")).events =
      [Event.stateChanged (WAStateVal.other "UNPAIRED"),
       Event.disconnectedState (WAStateVal.other "UNPAIRED")]) ∧
    (Event.stateChanged (WAStateVal.other "UNPAIRED") ∈
      (onAppStateChangedEvent false (WAStateVal.other "UNPAIRED")).events) ∧
    (Event.disconnectedState (WAStateVal.other "UNPAIRED") ∈
      (onAppStateChangedEvent false (WAStateVal.other "UNPAIRED")).events) := by
  decide

/-- C6 (amended): every connection-state mutation emits `change_state`
first, unconditionally; a `disconnected` event is additionally emitted iff
the new state is outside the accepted set (which contains `conflict` iff
takeover-on-conflict is configured); with takeover-on-conflict configured, a
`conflict` state emits no `disconnected` event and schedules the delayed
takeover command, whose own failure is turned into a console log and never
into a thrown error. -/
theorem onAppStateChanged_amended (takeoverOnConflict : Bool)
    (state : WAStateVal) :
    ((onAppStateChangedEvent takeoverOnConflict state).events =
      Event.stateChanged state ::
        (if (acceptedStates takeoverOnConflict).contains state then []
         else [Event.disconnectedState state])) ∧
    ((onAppStateChangedEvent takeoverOnConflict state).takeoverScheduled =
      (takeoverOnConflict && state == WAStateVal.conflict)) ∧
    (takeoverOnConflict = true →
      (onAppStateChangedEvent takeoverOnConflict WAStateVal.conflict).events =
        [Event.stateChanged WAStateVal.conflict] ∧
      (onAppStateChangedEvent takeoverOnConflict
          WAStateVal.conflict).takeoverScheduled = true) ∧
    (∀ e, takeoverHandler (Except.error e) =
      Except.ok ["WA conflict evaluate error " ++ e]) ∧
    (∀ r, ∃ logs, takeoverHandler r = Except.ok logs) := by
  refine ⟨?_, ?_, fun htk => ?_, fun e => rfl, fun r => ?_⟩
  · by_cases h : state ∈ acceptedStates takeoverOnConflict <;>
      simp [onAppStateChangedEvent, h]
  · by_cases h : state ∈ acceptedStates takeoverOnConflict <;>
      simp [onAppStateChangedEvent, h]
  · subst htk
    constructor
    · simp [onAppStateChangedEvent, acceptedStates]
    · simp [onAppStateChangedEvent, acceptedStates]
  · cases r with
    | ok v => exact ⟨[], rfl⟩
    | error e => exact ⟨["WA conflict evaluate error " ++ e], rfl⟩

/-- Witness for the amended C6: with takeover configured, a `conflict`
mutation emits only `change_state` and schedules the takeover. -/
theorem onAppStateChanged_amended_witness :
    (onAppStateChangedEvent true WAStateVal.conflict).events =
      [Event.stateChanged WAStateVal.conflict] ∧
    (onAppStateChangedEvent true WAStateVal.conflict).takeoverScheduled =
      true :=
  (onAppStateChanged_amended true WAStateVal.conflict).2.2.1 rfl

/-- C7: `sendMessage` content resolution is first-match-wins: whenever the
chain completes, at most one content variant is populated; when no branch
matches, the internal record and the content are untouched; when a branch
matches, the content is replaced by the empty string and exactly one variant
is populated.  In particular a non-empty array of four contacts (with no
media supplied via options) yields a contact-card list holding exactly the
four serialized identities, in input order. -/
theorem sendMessage_content_resolution (opts : SendOptionsIn)
    (content : SContent) :
    (∀ io c', resolveContent opts content = Except.ok (io, c') →
      populatedVariants io ≤ 1 ∧
      (matchedBranch opts content = ContentBranch.noneBranch →
        io = initInternal opts ∧ c' = content) ∧
      (matchedBranch opts content ≠ ContentBranch.noneBranch →
        c' = SContent.text "" ∧ populatedVariants io = 1)) ∧
    (∀ c1 c2 c3 c4 : ContactObj, opts.media = none →
      content = SContent.arr [ArrElem.contact c1, ArrElem.contact c2,
        ArrElem.contact c3, ArrElem.contact c4] →
      resolveContent opts content =
        Except.ok
          ({ initInternal opts with
             contactCardList := some [c1.serializedId, c2.serializedId,
               c3.serializedId, c4.serializedId] },
           SContent.text "")) := by
  obtain ⟨media, caption⟩ := opts
  constructor
  · intro io c' h
    cases media with
    | some m =>
      cases content <;>
        (simp only [resolveContent, Except.ok.injEq, Prod.mk.injEq] at h
         obtain ⟨hio, hc⟩ := h
         subst hio
         subst hc
         exact ⟨by simp [populatedVariants, initInternal],
           fun hbr => by simp [matchedBranch] at hbr,
           fun _ => ⟨rfl, by simp [populatedVariants, initInternal]⟩⟩)
    | none =>
      cases content with
      | text s =>
        simp only [resolveContent, Except.ok.injEq, Prod.mk.injEq] at h
        obtain ⟨hio, hc⟩ := h
        subst hio
        subst hc
        exact ⟨by simp [populatedVariants, initInternal],
          fun _ => ⟨rfl, rfl⟩, fun hbr => absurd rfl hbr⟩
      | media m =>
        simp only [resolveContent, Except.ok.injEq, Prod.mk.injEq] at h
        obtain ⟨hio, hc⟩ := h
        subst hio
        subst hc
        exact ⟨by simp [populatedVariants, initInternal],
          fun hbr => by simp [matchedBranch] at hbr,
          fun _ => ⟨rfl, by simp [populatedVariants, initInternal]⟩⟩
      | location l =>
        simp only [resolveContent, Except.ok.injEq, Prod.mk.injEq] at h
        obtain ⟨hio, hc⟩ := h
        subst hio
        subst hc
        exact ⟨by simp [populatedVariants, initInternal],
          fun hbr => by simp [matchedBranch] at hbr,
          fun _ => ⟨rfl, by simp [populatedVariants, initInternal]⟩⟩
      | contact c =>
        simp only [resolveContent, Except.ok.injEq, Prod.mk.injEq] at h
        obtain ⟨hio, hc⟩ := h
        subst hio
        subst hc
        exact ⟨by simp [populatedVariants, initInternal],
          fun hbr => by simp [matchedBranch] at hbr,
          fun _ => ⟨rfl, by simp [populatedVariants, initInternal]⟩⟩
      | listMsg l =>
        simp only [resolveContent, Except.ok.injEq, Prod.mk.injEq] at h
        obtain ⟨hio, hc⟩ := h
        subst hio
        subst hc
        exact ⟨by simp [populatedVariants, initInternal],
          fun hbr => by simp [matchedBranch] at hbr,
          fun _ => ⟨rfl, by simp [populatedVariants, initInternal]⟩⟩
      | buttons b =>
        simp only [resolveContent, Except.ok.injEq, Prod.mk.injEq] at h
        obtain ⟨hio, hc⟩ := h
        subst hio
        subst hc
        by_cases hbt : b.type = "chat"
        · exact ⟨by simp [populatedVariants, initInternal, hbt],
            fun hbr => by simp [matchedBranch] at hbr,
            fun _ => ⟨rfl, by simp [populatedVariants, initInternal, hbt]⟩⟩
        · exact ⟨by simp [populatedVariants, initInternal, hbt],
            fun hbr => by simp [matchedBranch] at hbr,
            fun _ => ⟨rfl, by simp [populatedVariants, initInternal, hbt]⟩⟩
      | arr xs =>
        by_cases hca : isContactArray xs = true
        · cases hser : serializeContacts xs with
          | error e =>
            simp only [resolveContent, hca, if_true, hser, Except.map] at h
            exact Except.noConfusion h
          | ok ids =>
            simp only [resolveContent, hca, if_true, hser, Except.map,
              Except.ok.injEq, Prod.mk.injEq] at h
            obtain ⟨hio, hc⟩ := h
            subst hio
            subst hc
            exact ⟨by simp [populatedVariants, initInternal],
              fun hbr => by simp [matchedBranch, hca] at hbr,
              fun _ => ⟨rfl, by simp [populatedVariants, initInternal]⟩⟩
        · rw [show resolveContent { media := none, caption := caption }
              (SContent.arr xs) =
              Except.ok (initInternal { media := none, caption := caption },
                SContent.arr xs) from by simp [resolveContent, hca]] at h
          injection h with h1
          injection h1 with hio hc
          subst hio
          subst hc
          exact ⟨by simp [populatedVariants, initInternal],
            fun _ => ⟨rfl, rfl⟩,
            fun hbr => by simp [matchedBranch, hca] at hbr⟩
  · intro c1 c2 c3 c4 hmedia hcontent
    subst hcontent
    cases media with
    | some m => exact Option.noConfusion hmedia
    | none => rfl

/-- Witness for C7: four concrete contacts (no media in options) resolve to
a contact-card list holding their four serialized identities in input
order. -/
theorem sendMessage_content_resolution_witness :
    resolveContent { media := none, caption := none }
        (SContent.arr [ArrElem.contact { serializedId := "a@c.us" },
          ArrElem.contact { serializedId := "b@c.us" },
          ArrElem.contact { serializedId := "c@c.us" },
          ArrElem.contact { serializedId := "d@c.us" }]) =
      Except.ok
        ({ initInternal { media := none, caption := none } with
           contactCardList :=
             some ["a@c.us", "b@c.us", "c@c.us", "d@c.us"] },
         SContent.text "") :=
  (sendMessage_content_resolution { media := none, caption := none }
      (SContent.arr [ArrElem.contact { serializedId := "a@c.us" },
        ArrElem.contact { serializedId := "b@c.us" },
        ArrElem.contact { serializedId := "c@c.us" },
        ArrElem.contact { serializedId := "d@c.us" }])).2
    { serializedId := "a@c.us" } { serializedId := "b@c.us" }
    { serializedId := "c@c.us" } { serializedId := "d@c.us" } rfl rfl

/-- C8 counterexample: a chat collection holding three pinned chats on which
`pinChat` of an unpinned chat nevertheless returns `true` and issues the
remote pin mutation — the guard only inspects `models[2].pin`, so it misses
pinned chats that do not occupy the first three slots. -/
theorem pinChat_claim_counterexample :
    (([{ id := "a", pin := true }, { id := "b", pin := true },
       { id := "t", pin := false }, { id := "c", pin := true }] :
        List ChatObj).countP (fun c => c.pin) = 3) ∧
    pinChat [{ id := "a", pin := true }, { id := "b", pin := true },
        { id := "t", pin := false }, { id := "c", pin := true }] "t" =
      Except.ok (true, true) :=
  ⟨by decide, rfl⟩

/-- C8 (amended): when pinned chats occupy a prefix of the chat collection
(which is the order the remote store maintains), `pinChat` on an unpinned
chat while at least 3 chats are pinned returns `false` and issues no remote
pin mutation; the cap is the fixed `MAX_PIN_COUNT = 3`. -/
theorem pinChat_cap_amended (P U : List ChatObj) (chatId : String)
    (chat : ChatObj)
    (hP : ∀ c ∈ P, c.pin = true)
    (hlen : 3 ≤ P.length)
    (hfind : (P ++ U).find? (fun c => c.id == chatId) = some chat)
    (hchat : chat.pin = false) :
    pinChat (P ++ U) chatId = Except.ok (false, false) := by
  have hmem : chat ∈ P ++ U := List.mem_of_find?_eq_some hfind
  have hchatU : chat ∈ U := by
    rcases List.mem_append.1 hmem with hPm | hUm
    · exact absurd (hP chat hPm) (by simp [hchat])
    · exact hUm
  have hUlen : 1 ≤ U.length :=
    List.length_pos.2 (List.ne_nil_of_mem hchatU)
  have hlen4 : (P ++ U).length > 3 := by
    simp only [List.length_append]
    omega
  have h2 : 2 < P.length := by omega
  have hidx : (P ++ U)[2]? = P[2]? := List.getElem?_append_left h2
  have hp : P[2]? = some (P[2]) := List.getElem?_eq_getElem h2
  have hppin : (P[2]).pin = true := hP _ (List.getElem_mem h2)
  simp only [pinChat, hfind, hchat, Bool.false_eq_true, if_false,
    hidx, hp, hppin]
  simp [hlen4]
  omega

/-- Witness for the amended C8: three pinned chats followed by the unpinned
target: `pinChat` refuses and issues no mutation. -/
theorem pinChat_cap_amended_witness :
    pinChat ([{ id := "a", pin := true }, { id := "b", pin := true },
        { id := "c", pin := true }] ++ [{ id := "t", pin := false }]) "t" =
      Except.ok (false, false) :=
  pinChat_cap_amended
    [{ id := "a", pin := true }, { id := "b", pin := true },
      { id := "c", pin := true }]
    [{ id := "t", pin := false }] "t" { id := "t", pin := false }
    (by decide) (by decide) (by decide) rfl

/-- C9: `pinChat` on an already-pinned chat returns `true` and issues no
remote pin command. -/
theorem pinChat_idempotent (models : List ChatObj) (chatId : String)
    (chat : ChatObj)
    (hfind : models.find? (fun c => c.id == chatId) = some chat)
    (hpin : chat.pin = true) :
    pinChat models chatId = Except.ok (true, false) := by
  simp [pinChat, hfind, hpin]

/-- Witness for C9 at a concrete collection with a pinned target chat. -/
theorem pinChat_idempotent_witness :
    pinChat [{ id := "a", pin := false }, { id := "t", pin := true }] "t" =
      Except.ok (true, false) :=
  pinChat_idempotent [{ id := "a", pin := false }, { id := "t", pin := true }]
    "t" { id := "t", pin := true } (by decide) rfl

/-- C10: `getNumberId` never rejects: any failure of the remote round trip
resolves to `null`, and a successful round trip's value is returned as
is. -/
theorem getNumberId_no_reject
    (remote : String → Except String (Option NumberIdObj))
    (number : String) :
    (∀ e, remote (normalizeNumber number) = Except.error e →
      getNumberId remote number = none) ∧
    (∀ v, remote (normalizeNumber number) = Except.ok v →
      getNumberId remote number = v) := by
  constructor
  · intro e he
    simp [getNumberId, he]
  · intro v hv
    simp [getNumberId, hv]

/-- Witness for C10: a remote round trip that always fails makes
`getNumberId` resolve to `null`. -/
theorem getNumberId_no_reject_witness :
    getNumberId (fun _ => Except.error "Evaluation failed") "1234567890" =
      none :=
  (getNumberId_no_reject (fun _ => Except.error "Evaluation failed")
    "1234567890").1 "Evaluation failed" rfl

end WWebJS
